import Mathlib

set_option maxRecDepth 100000
set_option autoImplicit false

/-!
Shallow embedding of `banner_generator.py` (class `BannerGenerator`).

The pipeline sequences calls to two external generative services (a text
model and an image generation/edit model) and manages file paths.  The
embedding models:
  * the mutable session object (`BannerGenerator` below) field by field;
  * the filesystem as a partial map from paths to abstract images;
  * the two external services as deterministic oracles that may fail
    (`Services`), so that every Python exception site becomes an
    `Except Err` error;
  * a trace of every service request/response (`Call`), so that claims
    about how many calls a stage makes, and with which arguments, are
    statable.

Python `str.isalnum` is modelled on the ASCII range by `Char.isAlphanum`;
the relevant claims relate the code's filter to the spec's wording, which
use the same predicate, so nothing below depends on its exact extension.
-/

/-- The aspect ratios accepted by the `aspect_ratio` field
(`Literal["1:1", "9:16", "16:9", "4:3", "3:4"]`, line 30). -/
inductive Ratio
  | r1x1
  | r9x16
  | r16x9
  | r4x3
  | r3x4
deriving DecidableEq

/-- An abstract image.  `mode` models the PIL image mode string
("RGB", "RGBA", ...); `pix` abstracts the pixel contents. -/
structure Img where
  mode : String
  pix : Nat
deriving DecidableEq

/-- A response of the image generation / edit service: an object carrying a
list of generated images (`response.images`). -/
structure ImgResponse where
  images : List Img
deriving DecidableEq

/-- The Python exceptions the embedded code can raise. -/
inductive Err
  | apiError (msg : String)
  | fileNotFound (path : String)
  | attributeError
  | typeError
  | indexError
deriving DecidableEq

/-- A request to `ImageGenerationModel.generate_images`.  `aspect_ratio =
none` models the call made without an aspect-ratio argument (line 138). -/
structure GenReq where
  prompt : String
  aspect_ratio : Option Ratio
deriving DecidableEq

/-- A request to `ImageGenerationModel.edit_image` (lines 173-178). -/
structure EditReq where
  base_image : Img
  prompt : String
  edit_mode : String
  mask_mode : String
deriving DecidableEq

/-- One recorded service call, with its response. -/
inductive Call
  | text (prompt : String) (response : String)
  | textMulti (prompt : String) (imgs : List Img) (response : String)
  | genImages (req : GenReq) (resp : ImgResponse)
  | editImage (req : EditReq) (resp : ImgResponse)
deriving DecidableEq

/-- `true` exactly on the edit-service calls. -/
def Call.isEdit : Call → Bool
  | .editImage _ _ => true
  | _ => false

/-- `true` exactly on the multimodal text calls (prompt plus images). -/
def Call.isMulti : Call → Bool
  | .textMulti _ _ _ => true
  | _ => false

/-- The two external services, as deterministic fallible oracles:
`generate_content` on a plain prompt, `generate_content_multi` on a prompt
plus a list of images, `generate_images`, and `edit_image`. -/
structure Services where
  generate_content : String → Except Err String
  generate_content_multi : String → List Img → Except Err String
  generate_images : GenReq → Except Err ImgResponse
  edit_image : EditReq → Except Err ImgResponse

/-- The session object: the pydantic model's fields (lines 24-44).
Model handles (`pm`, `im`, `em`) are modelled by the name of the model they
were built from; `none` is Python `None`. -/
structure BannerGenerator where
  topic : String
  images : Option (List String) := none
  aspect_ratio : Option Ratio := none
  text_model : String := "gemini-1.5-flash"
  image_model : String := "imagen-3.0-generate-001"
  edit_model : String := "imagegeneration@006"
  pm : Option String := none
  im : Option String := none
  em : Option String := none
  text_v0 : Option String := none
  text_v1 : Option String := none
  text_v2 : Option String := none
  text_v3 : Option String := none
  img_response_v1 : Option ImgResponse := none
  img_response_v2 : Option ImgResponse := none
  img_response_v3 : Option ImgResponse := none
  launch_state : Bool := false

/-- The whole mutable state a run touches: the session, the filesystem,
and the trace of service calls made so far. -/
structure World where
  bg : BannerGenerator
  fs : String → Option Img
  calls : List Call

/-- Python truthiness of the `images` field: `None` and `[]` are falsy. -/
def pyTruthy : Option (List String) → Bool
  | none => false
  | some l => !l.isEmpty

/-- Python `str(...)` of a possibly-`None` string field, as an f-string
interpolates it. -/
def strOf : Option String → String
  | none => "None"
  | some s => s

/-- Write (create or overwrite) a file. -/
def fsWrite (w : World) (p : String) (i : Img) : World :=
  { w with fs := fun q => if q = p then some i else w.fs q }

/-- `os.remove`. -/
def fsRemove (w : World) (p : String) : World :=
  { w with fs := fun q => if q = p then none else w.fs q }

/-- `__launch` (lines 46-55): on the first invocation build the three model
handles and set `launch_state`; afterwards do nothing.  `vertexai.init` and
`genai.configure` only touch library-global state outside the model. -/
def launch (w : World) : World :=
  if w.bg.launch_state then w
  else
    { w with
      bg := { w.bg with
        pm := some w.bg.text_model
        im := some w.bg.image_model
        em := some w.bg.edit_model
        launch_state := true } }

/-- `self.pm.generate_content(prompt)` followed by `.text`: attribute access
on a `None` handle raises; otherwise the oracle answers and the call is
recorded. -/
def callText (sv : Services) (prompt : String) (w : World) :
    Except Err (String × World) :=
  match w.bg.pm with
  | none => .error .attributeError
  | some _ =>
    match sv.generate_content prompt with
    | .error e => .error e
    | .ok t => .ok (t, { w with calls := w.calls ++ [.text prompt t] })

/-- `self.pm.generate_content([prompt, *images])` followed by `.text`. -/
def callTextMulti (sv : Services) (prompt : String) (imgs : List Img)
    (w : World) : Except Err (String × World) :=
  match w.bg.pm with
  | none => .error .attributeError
  | some _ =>
    match sv.generate_content_multi prompt imgs with
    | .error e => .error e
    | .ok t => .ok (t, { w with calls := w.calls ++ [.textMulti prompt imgs t] })

/-- `self.im.generate_images(...)`. -/
def callGenImages (sv : Services) (req : GenReq) (w : World) :
    Except Err (ImgResponse × World) :=
  match w.bg.im with
  | none => .error .attributeError
  | some _ =>
    match sv.generate_images req with
    | .error e => .error e
    | .ok r => .ok (r, { w with calls := w.calls ++ [.genImages req r] })

/-- `self.em.edit_image(...)`. -/
def callEdit (sv : Services) (req : EditReq) (w : World) :
    Except Err (ImgResponse × World) :=
  match w.bg.em with
  | none => .error .attributeError
  | some _ =>
    match sv.edit_image req with
    | .error e => .error e
    | .ok r => .ok (r, { w with calls := w.calls ++ [.editImage req r] })

/-- `PIL.Image.open(path)` / `VertexImage.load_from_file(location=path)`:
a plain read of the file, raising when it does not exist. -/
def openImage (fs : String → Option Img) (path : String) : Except Err Img :=
  match fs path with
  | none => .error (.fileNotFound path)
  | some i => .ok i

/-- The loop body of `load_images` (lines 62-66): open each path in order,
converting RGBA images to RGB. -/
def openImages (fs : String → Option Img) : List String → Except Err (List Img)
  | [] => .ok []
  | p :: ps =>
    match openImage fs p with
    | .error e => .error e
    | .ok i =>
      let i := if i.mode = "RGBA" then { i with mode := "RGB" } else i
      match openImages fs ps with
      | .error e => .error e
      | .ok rest => .ok (i :: rest)

/-- `load_images` (lines 57-68).  Iterating `self.images` when it is `None`
raises `TypeError`. -/
def load_images (w : World) : Except Err (List Img × World) :=
  let w := launch w
  match w.bg.images with
  | none => .error .typeError
  | some paths =>
    match openImages w.fs paths with
    | .error e => .error e
    | .ok imgs => .ok (imgs, w)

/-- The extraction prompt of `extract_image_information` (line 73). -/
def examinePrompt : String :=
  "Examine the set of images to extract information about the product (name, logo) in less than 80 words."

/-- `extract_image_information` (lines 70-77). -/
def extract_image_information (sv : Services) (w : World) :
    Except Err (String × World) :=
  match load_images w with
  | .error e => .error e
  | .ok (imgs, w) => callTextMulti sv examinePrompt imgs w

/-- The f-string sent first by `extract_information` (lines 83-95). -/
def deepAnalyzePrompt (topic : String) : String :=
  "Deep analyze text from retail advertising, marketing psychology, and thoroughly researched marketing studies perspective: "
  ++ topic ++ "\n"
  ++ "        Extract the following information:\n"
  ++ "        0. Product: Product name, brand and supplier, logo, tagline, size, packaging if available\n"
  ++ "        1. Objective: 1 word for primary goal of the banner. Example - Awareness, Engagement, Conversion, Branding\n"
  ++ "        2. Festival: Event or occasion it may be tied to. Example - Christmas, Diwali, Black Friday, Summer Sale, New Year, Generic\n"
  ++ "        3. Headline: Suggest a main text that captures attention. Example - Discover [product] for [festival], Shop now and save!, Limited time offer, Innovate your life with [product]\n"
  ++ "        4. Subheadline: Optional additional supporting information to clarify the offer. Example - Get 50% off until [date], Exclusive deal for festive season, Hurry offer ends soon\n"
  ++ "        5. CTA: Add a call to action. Example - Buy now, Shop the collection, Discover More, Sign up today\n"
  ++ "        6. Color Scheme: Use color palette based on audience, occasion, or product tone. Example - Red & Gold (Festive, Urgency), Blue & White (Trust, Calm), Green & Brown (Eco-friendly, Natural), Black & White (Elegant, Minimal)\n"
  ++ "        7. Promotional offer: Suggest 1 best promotional offer. Example - MAX ₹99 OFF, UP TO 60% OFF, UNDER ₹999, MIN ₹10 OFF, MIN 20% OFF, STARTS @₹99, FLAT ₹100 OFF, FLAT 20% OFF, ₹499 STORE, BUY 2 GET 1 FREE\n"
  ++ "        8. Background color gradient: Dynamic color generation to match overall look and feel\n"
  ++ "        9. Background theme: Festival oriented or generic if no festival\n"
  ++ "        "

/-- Python string slice `s[9:-5]` (line 105): the characters from index 9
up to index `length - 5` (both clamped). -/
def pySlice9m5 (s : String) : String :=
  String.mk ((s.data.take (s.data.length - 5)).drop 9)

/-- The consolidation prompt of `extract_information` (line 99), before the
optional image-insights append. -/
def consolidatePrompt (v0 : String) : String :=
  "Respond concisely and summarize in Python dictionary format only this: " ++ v0

/-- The scrapper prompt of `extract_information` (line 108). -/
def scrapPrompt (v1 : String) : String :=
  "Respond concisely by scrapping all unavailable information in Python dictionary format only this: " ++ v1

/-- `extract_information` (lines 79-111). -/
def extract_information (sv : Services) (w : World) : Except Err World :=
  let w := launch w
  match callText sv (deepAnalyzePrompt w.bg.topic) w with
  | .error e => .error e
  | .ok (t0, w) =>
    let w := { w with bg.text_v0 := some t0 }
    let branch : Except Err (String × World) :=
      if pyTruthy w.bg.images then
        match extract_image_information sv w with
        | .error e => .error e
        | .ok (info, w) =>
          .ok (consolidatePrompt t0 ++ " Product insights: " ++ info, w)
      else .ok (consolidatePrompt t0, w)
    match branch with
    | .error e => .error e
    | .ok (out_text, w) =>
      match callText sv out_text w with
      | .error e => .error e
      | .ok (t1, w) =>
        let w := { w with bg.text_v1 := some (pySlice9m5 t1) }
        match callText sv (scrapPrompt (pySlice9m5 t1)) w with
        | .error e => .error e
        | .ok (t2, w) => .ok { w with bg.text_v2 := some t2 }

/-- The f-string sent by `create_text_prompt` (lines 115-126). -/
def fillJsonPrompt (v2 : String) : String :=
  "Task: Fill in the values in this json: " ++ v2 ++ "\n"
  ++ "        Guidelines:\n"
  ++ "        1. It will be used to generate an ads banner.\n"
  ++ "        2. Ensure it has all details pair-wise meticulously captured.\n"
  ++ "        3. All unknown/missing/unprovided variables are replaced with the attributes of the most probable shopper for that product.\n"
  ++ "        4. Recheck and identify all ambiguity or any text that leads to uncertainty.\n"
  ++ "        5. Replace all uncertainty with targeted values that make the most sense for the given product.\n"
  ++ "        6. Quantify everything possible, like high, medium, and lows to percentage values based on marketing and psychometric research studies.\n"
  ++ "        7. All KPIs and qualitative measures are to be used subcontextually only. Remove any details about statistical testing or names of any performance KPIs.\n"
  ++ "        8. Avoid sentences and use only necessary keywords.\n"
  ++ "        9. Remove all redundant key-value pairs.\n"
  ++ "        "

/-- `create_text_prompt` (lines 113-128). -/
def create_text_prompt (sv : Services) (w : World) : Except Err World :=
  match callText sv (fillJsonPrompt (strOf w.bg.text_v2)) w with
  | .error e => .error e
  | .ok (t3, w) => .ok { w with bg.text_v3 := some t3 }

/-- The fixed temporary image path (lines 141, 162, 170). -/
def tempPath : String := "images/temp/temp.jpg"

/-- The image-generation prompt (line 132). -/
def genPrompt (v3 : String) : String :=
  "Realistic, subcontextually implied qualitative attributes inspired, excellent image quality ad capturing every detail in json:"
  ++ v3

/-- `generate_image` (lines 130-147). -/
def generate_image (sv : Services) (w : World) : Except Err (String × World) :=
  let prompt := genPrompt (strOf w.bg.text_v3)
  let request : Except Err (ImgResponse × World) :=
    match w.bg.aspect_ratio with
    | some ar => callGenImages sv { prompt := prompt, aspect_ratio := some ar } w
    | none => callGenImages sv { prompt := prompt, aspect_ratio := none } w
  match request with
  | .error e => .error e
  | .ok (resp, w) =>
    let w := { w with bg.img_response_v1 := some resp }
    let w := if (w.fs tempPath).isSome then fsRemove w tempPath else w
    match resp.images with
    | [] => .error .indexError
    | i :: _ => .ok (tempPath, fsWrite w tempPath i)

/-- The f-string sent by `identify_lags` (lines 151-161). -/
def lagsPrompt (v3 : String) : String :=
  "Be direct. Quality check the banner out of 10 on:\n"
  ++ "        1. Promotional offer present as per instructions below\n"
  ++ "        2. Ensure ALL texts pass grammatical checks\n"
  ++ "        3. Color pallette as per instructions below\n"
  ++ "        4. Occassion or festival theme is present as per instructions below\n"
  ++ "\n"
  ++ "        ONLY USE INFORMATION FROM " ++ v3
  ++ ". Don\x27t DO NOT make up colors, promo or occasion. Make sure the promo and color pallete is followed as per above instructions.\n"
  ++ "\n"
  ++ "        Precisely point out errors and corresponding actions to fix the image where score is below 8.\n"
  ++ "        Do not output anything about elements that need no change.\n"
  ++ "        "

/-- `identify_lags` (lines 149-165). -/
def identify_lags (sv : Services) (w : World) : Except Err (String × World) :=
  let prompt := lagsPrompt (strOf w.bg.text_v3)
  match openImage w.fs tempPath with
  | .error e => .error e
  | .ok i => callTextMulti sv prompt [i] w

/-- Python `str.isalnum`, modelled on the ASCII range. -/
def pyIsAlnum (c : Char) : Bool := c.isAlphanum

/-- Python `str.isspace` membership for `str.strip`: the ASCII whitespace
characters. -/
def pyIsSpace (c : Char) : Bool :=
  c == ' ' || c == '\t' || c == '\n' || c == '\r' || c == '\x0b' || c == '\x0c'

/-- Python `str.strip()`: drop whitespace at both ends. -/
def pyStrip (l : List Char) : List Char :=
  ((l.dropWhile pyIsSpace).reverse.dropWhile pyIsSpace).reverse

/-- Python `str.replace(' ', '_')`: a single-character replacement is a
per-character map. -/
def pyReplaceSpace (l : List Char) : List Char :=
  l.map fun c => if c == ' ' then '_' else c

/-- Lines 194-195: the sanitized output filename — keep alphanumeric
characters and spaces, clip to the first 50 characters, strip, replace
spaces with underscores, append `.jpg`. -/
def output_filename_of (topic : String) : String :=
  let kept := topic.data.filter fun e => pyIsAlnum e || e == ' '
  let clipped := kept.take 50
  String.mk (pyReplaceSpace (pyStrip clipped)) ++ ".jpg"

/-- The edit prompt of the first repair round (line 169). -/
def fixPrompt (lags : String) : String :=
  "Realistic, subcontextually implied qualitative attributes inspired, excellent image quality ad by: " ++ lags

/-- The edit prompt of the second repair round (line 183). -/
def fixEditPrompt (lags : String) : String :=
  "Realistic, subcontextually implied qualitative attributes inspired, excellent image quality ad edit by: " ++ lags

/-- The edit request built by both repair rounds (lines 173-178, 184-189):
inpainting-insert on the background mask. -/
def editReqOf (base : Img) (prompt : String) : EditReq :=
  { base_image := base, prompt := prompt,
    edit_mode := "inpainting-insert", mask_mode := "background" }

/-- The second critique+edit round of `fix_image` (lines 182-191), run only
when `retest` is set. -/
def retestStep (sv : Services) (w : World) : Except Err World :=
  match identify_lags sv w with
  | .error e => .error e
  | .ok (lags, w) =>
    match openImage w.fs tempPath with
    | .error e => .error e
    | .ok base =>
      match callEdit sv (editReqOf base (fixEditPrompt lags)) w with
      | .error e => .error e
      | .ok (r3, w) =>
        let w := { w with bg.img_response_v3 := some r3 }
        match r3.images with
        | [] => .error .indexError
        | i3 :: _ => .ok (fsWrite w tempPath i3)

/-- `fix_image` (lines 167-200).  Note the last save (line 197) reads
`self.img_response_v2` — the first edit's response — whatever `retest`
was. -/
def fix_image (sv : Services) (retest : Bool) (w : World) :
    Except Err (String × World) :=
  match identify_lags sv w with
  | .error e => .error e
  | .ok (lags, w) =>
    match openImage w.fs tempPath with
    | .error e => .error e
    | .ok base =>
      match callEdit sv (editReqOf base (fixPrompt lags)) w with
      | .error e => .error e
      | .ok (r2, w) =>
        let w := { w with bg.img_response_v2 := some r2 }
        match r2.images with
        | [] => .error .indexError
        | i2 :: _ =>
          let w := fsWrite w tempPath i2
          match (if retest then retestStep sv w else .ok w) with
          | .error e => .error e
          | .ok w =>
            let output_img_path := "images/output/" ++ output_filename_of w.bg.topic
            match w.bg.img_response_v2 with
            | none => .error .attributeError
            | some rfin =>
              match rfin.images with
              | [] => .error .indexError
              | ifin :: _ => .ok (output_img_path, fsWrite w output_img_path ifin)

/-- `execute` (lines 202-208). -/
def execute (sv : Services) (QC : Bool) (w : World) : Except Err (String × World) :=
  match extract_information sv w with
  | .error e => .error e
  | .ok w =>
    match create_text_prompt sv w with
    | .error e => .error e
    | .ok w =>
      match generate_image sv w with
      | .error e => .error e
      | .ok (_, w) => fix_image sv QC w

/-! ## Spec-side definitions

These follow the spec's wording, for comparison with the definitions
embedded from the source. -/

/-- The spec's description of the consolidation cleanup (claim C4): the
response with its first 9 characters removed and then its last 5 characters
removed. -/
def dropFirst9Last5 (s : String) : String :=
  let t := s.data.drop 9
  String.mk (t.take (t.length - 5))

/-- The spec's description of the output filename (claim C2): keep only
alphanumeric characters and spaces of the topic, truncate to 50 characters,
strip surrounding whitespace, replace spaces with underscores, add `.jpg`. -/
def specFilename (topic : String) : String :=
  let kept := topic.data.filter fun c => pyIsAlnum c || c == ' '
  let truncated := kept.take 50
  let stripped := ((truncated.dropWhile pyIsSpace).reverse.dropWhile pyIsSpace).reverse
  String.mk (stripped.map fun c => if c == ' ' then '_' else c) ++ ".jpg"

/-- `s` ends with the four characters `.jpg`. -/
def jpgSuffixed (s : String) : Prop :=
  4 ≤ s.data.length ∧ s.data.drop (s.data.length - 4) = ".jpg".data

instance (s : String) : Decidable (jpgSuffixed s) := by
  unfold jpgSuffixed; infer_instance

/-! ## Characterizations of the service-call wrappers -/

theorem callText_ok {sv : Services} {p : String} {w : World} {t : String}
    {w' : World} (h : callText sv p w = .ok (t, w')) :
    sv.generate_content p = .ok t ∧ w'.bg = w.bg ∧ w'.fs = w.fs ∧
      w'.calls = w.calls ++ [.text p t] := by
  unfold callText at h
  split at h
  · exact absurd h (by simp)
  · split at h
    · exact absurd h (by simp)
    · rename_i heq
      injection h with h
      injection h with h1 h2
      subst h1; subst h2
      exact ⟨heq, rfl, rfl, rfl⟩

theorem callTextMulti_ok {sv : Services} {p : String} {imgs : List Img}
    {w : World} {t : String} {w' : World}
    (h : callTextMulti sv p imgs w = .ok (t, w')) :
    sv.generate_content_multi p imgs = .ok t ∧ w'.bg = w.bg ∧ w'.fs = w.fs ∧
      w'.calls = w.calls ++ [.textMulti p imgs t] := by
  unfold callTextMulti at h
  split at h
  · exact absurd h (by simp)
  · split at h
    · exact absurd h (by simp)
    · rename_i heq
      injection h with h
      injection h with h1 h2
      subst h1; subst h2
      exact ⟨heq, rfl, rfl, rfl⟩

theorem callGenImages_ok {sv : Services} {req : GenReq} {w : World}
    {r : ImgResponse} {w' : World} (h : callGenImages sv req w = .ok (r, w')) :
    sv.generate_images req = .ok r ∧ w'.bg = w.bg ∧ w'.fs = w.fs ∧
      w'.calls = w.calls ++ [.genImages req r] := by
  unfold callGenImages at h
  split at h
  · exact absurd h (by simp)
  · split at h
    · exact absurd h (by simp)
    · rename_i heq
      injection h with h
      injection h with h1 h2
      subst h1; subst h2
      exact ⟨heq, rfl, rfl, rfl⟩

theorem callEdit_ok {sv : Services} {req : EditReq} {w : World}
    {r : ImgResponse} {w' : World} (h : callEdit sv req w = .ok (r, w')) :
    sv.edit_image req = .ok r ∧ w'.bg = w.bg ∧ w'.fs = w.fs ∧
      w'.calls = w.calls ++ [.editImage req r] := by
  unfold callEdit at h
  split at h
  · exact absurd h (by simp)
  · split at h
    · exact absurd h (by simp)
    · rename_i heq
      injection h with h
      injection h with h1 h2
      subst h1; subst h2
      exact ⟨heq, rfl, rfl, rfl⟩

/-! ## Basic facts about `launch` -/

theorem launch_fs (w : World) : (launch w).fs = w.fs := by
  unfold launch; split <;> rfl

theorem launch_calls (w : World) : (launch w).calls = w.calls := by
  unfold launch; split <;> rfl

theorem launch_topic (w : World) : (launch w).bg.topic = w.bg.topic := by
  unfold launch; split <;> rfl

theorem launch_images (w : World) : (launch w).bg.images = w.bg.images := by
  unfold launch; split <;> rfl

theorem launch_launch_state (w : World) : (launch w).bg.launch_state = true := by
  unfold launch; split
  · assumption
  · rfl

theorem launch_eq_self {w : World} (h : w.bg.launch_state = true) : launch w = w := by
  unfold launch; simp [h]

/-! ## Stage characterizations -/

theorem extract_image_information_ok {sv : Services} {w : World}
    {info : String} {w' : World}
    (h : extract_image_information sv w = .ok (info, w')) :
    ∃ paths imgs, w.bg.images = some paths ∧
      openImages w.fs paths = .ok imgs ∧
      sv.generate_content_multi examinePrompt imgs = .ok info ∧
      w'.bg = (launch w).bg ∧ w'.fs = w.fs ∧
      w'.calls = w.calls ++ [.textMulti examinePrompt imgs info] := by
  unfold extract_image_information load_images at h
  dsimp only at h
  split at h
  · exact absurd h (by simp)
  · rename_i imgs wl hl
    split at hl
    · exact absurd hl (by simp)
    · rename_i paths hpaths
      split at hl
      · exact absurd hl (by simp)
      · rename_i imgs' hopen
        injection hl with hl
        injection hl with h1 h2
        subst h1
        subst h2
        obtain ⟨hm, hbg, hfs, hcalls⟩ := callTextMulti_ok h
        refine ⟨paths, imgs', ?_, ?_, hm, ?_, ?_, ?_⟩
        · rw [← launch_images]; exact hpaths
        · rw [← launch_fs]; exact hopen
        · exact hbg
        · rw [hfs, launch_fs]
        · rw [hcalls, launch_calls]

theorem extract_information_ok {sv : Services} {w w₁ : World}
    (h : extract_information sv w = .ok w₁) :
    w₁.fs = w.fs ∧
    w₁.bg.topic = w.bg.topic ∧
    w₁.bg.images = w.bg.images ∧
    ∃ t0 t1 t2,
      w₁.bg.text_v0 = some t0 ∧
      w₁.bg.text_v1 = some (pySlice9m5 t1) ∧
      w₁.bg.text_v2 = some t2 ∧
      ((pyTruthy w.bg.images = false ∧
         w₁.calls = w.calls ++
           [.text (deepAnalyzePrompt w.bg.topic) t0,
            .text (consolidatePrompt t0) t1,
            .text (scrapPrompt (pySlice9m5 t1)) t2]) ∨
       (∃ imgs info,
         pyTruthy w.bg.images = true ∧
         w₁.calls = w.calls ++
           [.text (deepAnalyzePrompt w.bg.topic) t0,
            .textMulti examinePrompt imgs info,
            .text (consolidatePrompt t0 ++ " Product insights: " ++ info) t1,
            .text (scrapPrompt (pySlice9m5 t1)) t2])) := by
  unfold extract_information at h
  dsimp only at h
  split at h
  · exact absurd h (by simp)
  · rename_i t0 w' hc0
    obtain ⟨-, hbg0, hfs0, hcalls0⟩ := callText_ok hc0
    split at h
    · exact absurd h (by simp)
    · rename_i ot wb hbr
      split at h
      · exact absurd h (by simp)
      · rename_i t1 w1 hc1
        obtain ⟨-, hbg1, hfs1, hcalls1⟩ := callText_ok hc1
        split at h
        · exact absurd h (by simp)
        · rename_i t2 w2 hc2
          obtain ⟨-, hbg2, hfs2, hcalls2⟩ := callText_ok hc2
          injection h with h
          subst h
          simp only at hbg2 hfs2 hcalls2
          split at hbr
          · rename_i htr
            split at hbr
            · exact absurd hbr (by simp)
            · rename_i info wI hEI
              injection hbr with hbr
              injection hbr with hot hwb
              subst hot
              subst hwb
              obtain ⟨paths, imgs, hpaths, hopen, hminfo, hbgI, hfsI, hcallsI⟩ :=
                extract_image_information_ok hEI
              rw [launch_eq_self (by simp [hbg0, launch_launch_state])] at hbgI
              simp only at hbgI hfsI hcallsI hpaths hopen htr
              refine ⟨?_, ?_, ?_, t0, t1, t2, ?_, ?_, ?_,
                Or.inr ⟨imgs, info, ?_, ?_⟩⟩ <;>
                simp_all [launch_fs, launch_calls, launch_topic, launch_images]
          · rename_i htr
            injection hbr with hbr
            injection hbr with hot hwb
            subst hot
            subst hwb
            refine ⟨?_, ?_, ?_, t0, t1, t2, ?_, ?_, ?_, Or.inl ⟨?_, ?_⟩⟩ <;>
              simp_all [launch_fs, launch_calls, launch_topic, launch_images]

theorem create_text_prompt_ok {sv : Services} {w w₁ : World}
    (h : create_text_prompt sv w = .ok w₁) :
    ∃ t3, sv.generate_content (fillJsonPrompt (strOf w.bg.text_v2)) = .ok t3 ∧
      w₁.bg.topic = w.bg.topic ∧ w₁.bg.images = w.bg.images ∧
      w₁.bg.aspect_ratio = w.bg.aspect_ratio ∧
      w₁.bg.text_v3 = some t3 ∧ w₁.fs = w.fs ∧
      w₁.calls = w.calls ++ [.text (fillJsonPrompt (strOf w.bg.text_v2)) t3] := by
  unfold create_text_prompt at h
  split at h
  · exact absurd h (by simp)
  · rename_i t3 w' hc
    obtain ⟨hm, hbg, hfs, hcalls⟩ := callText_ok hc
    injection h with h
    subst h
    exact ⟨t3, hm, by simp [hbg], by simp [hbg], by simp [hbg], by simp,
      by simp [hfs], by simp [hcalls]⟩

theorem identify_lags_ok {sv : Services} {w : World} {lags : String}
    {w₁ : World} (h : identify_lags sv w = .ok (lags, w₁)) :
    ∃ i, w.fs tempPath = some i ∧
      sv.generate_content_multi (lagsPrompt (strOf w.bg.text_v3)) [i] = .ok lags ∧
      w₁.bg = w.bg ∧ w₁.fs = w.fs ∧
      w₁.calls = w.calls ++
        [.textMulti (lagsPrompt (strOf w.bg.text_v3)) [i] lags] := by
  unfold identify_lags openImage at h
  dsimp only at h
  split at h
  · exact absurd h (by simp)
  · rename_i i hfs
    split at hfs
    · exact absurd hfs (by simp)
    · rename_i i' hfsi
      injection hfs with hfs
      subst hfs
      obtain ⟨hm, hbg, hfsw, hcalls⟩ := callTextMulti_ok h
      exact ⟨i', hfsi, hm, hbg, hfsw, hcalls⟩

theorem generate_image_ok {sv : Services} {w : World} {p : String}
    {w₁ : World} (h : generate_image sv w = .ok (p, w₁)) :
    ∃ resp i rest,
      resp.images = i :: rest ∧
      sv.generate_images { prompt := genPrompt (strOf w.bg.text_v3),
                           aspect_ratio := w.bg.aspect_ratio } = .ok resp ∧
      p = tempPath ∧
      w₁.bg.topic = w.bg.topic ∧
      w₁.bg.img_response_v1 = some resp ∧
      w₁.calls = w.calls ++
        [.genImages { prompt := genPrompt (strOf w.bg.text_v3),
                      aspect_ratio := w.bg.aspect_ratio } resp] ∧
      w₁.fs tempPath = some i ∧
      (∀ q, q ≠ tempPath → w₁.fs q = w.fs q) := by
  unfold generate_image at h
  dsimp only at h
  split at h
  · exact absurd h (by simp)
  · rename_i resp w' hreq
    have hx : ∃ ar, w.bg.aspect_ratio = ar ∧
        callGenImages sv { prompt := genPrompt (strOf w.bg.text_v3),
                           aspect_ratio := ar } w = .ok (resp, w') := by
      revert hreq
      cases har : w.bg.aspect_ratio with
      | none => intro hreq; exact ⟨none, rfl, hreq⟩
      | some ar => intro hreq; exact ⟨some ar, rfl, hreq⟩
    obtain ⟨ar, har, hcall⟩ := hx
    obtain ⟨hm, hbg, hfs, hcalls⟩ := callGenImages_ok hcall
    split at h
    · exact absurd h (by simp)
    · rename_i i rest himgs
      injection h with h
      injection h with h1 h2
      subst h1
      subst h2
      rw [har]
      refine ⟨resp, i, rest, himgs, hm, rfl, ?_, ?_, ?_, ?_, ?_⟩
      · split <;> simp [fsWrite, fsRemove, hbg]
      · split <;> simp [fsWrite, fsRemove]
      · split <;> simp [fsWrite, fsRemove, hcalls]
      · split <;> simp [fsWrite, fsRemove]
      · intro q hq
        split <;> simp [fsWrite, fsRemove, hq, hfs]

theorem retestStep_ok {sv : Services} {w w₁ : World}
    (h : retestStep sv w = .ok w₁) :
    ∃ lags i0 r3 i3 rest,
      w.fs tempPath = some i0 ∧
      r3.images = i3 :: rest ∧
      sv.edit_image (editReqOf i0 (fixEditPrompt lags)) = .ok r3 ∧
      w₁.bg.topic = w.bg.topic ∧
      w₁.bg.img_response_v2 = w.bg.img_response_v2 ∧
      w₁.bg.img_response_v3 = some r3 ∧
      w₁.fs tempPath = some i3 ∧
      (∀ q, q ≠ tempPath → w₁.fs q = w.fs q) ∧
      w₁.calls = w.calls ++
        [.textMulti (lagsPrompt (strOf w.bg.text_v3)) [i0] lags,
         .editImage (editReqOf i0 (fixEditPrompt lags)) r3] := by
  unfold retestStep at h
  split at h
  · exact absurd h (by simp)
  · rename_i lags wL hlags
    obtain ⟨i0, hfs0, hm, hbgL, hfsL, hcallsL⟩ := identify_lags_ok hlags
    unfold openImage at h
    rw [hfsL, hfs0] at h
    dsimp only at h
    split at h
    · exact absurd h (by simp)
    · rename_i r3 wE hedit
      obtain ⟨he, hbgE, hfsE, hcallsE⟩ := callEdit_ok hedit
      split at h
      · exact absurd h (by simp)
      · rename_i i3 rest himgs
        injection h with h
        subst h
        refine ⟨lags, i0, r3, i3, rest, hfs0, himgs, he, ?_, ?_, ?_, ?_, ?_, ?_⟩
        · simp [fsWrite, hbgE, hbgL]
        · simp [fsWrite, hbgE, hbgL]
        · simp [fsWrite, hbgE]
        · simp [fsWrite]
        · intro q hq
          simp [fsWrite, hq, hfsE, hfsL]
        · simp [fsWrite, hcallsE, hcallsL, hbgL]

theorem fix_image_ok {sv : Services} {retest : Bool} {w : World} {p : String}
    {w₁ : World} (h : fix_image sv retest w = .ok (p, w₁)) :
    p = "images/output/" ++ output_filename_of w.bg.topic ∧
    w₁.bg.topic = w.bg.topic ∧
    ∃ delta, w₁.calls = w.calls ++ delta ∧
      delta.countP Call.isEdit = (if retest then 2 else 1) := by
  unfold fix_image at h
  split at h
  · exact absurd h (by simp)
  · rename_i lags wL hlags
    obtain ⟨i0, hfs0, hm, hbgL, hfsL, hcallsL⟩ := identify_lags_ok hlags
    unfold openImage at h
    rw [hfsL, hfs0] at h
    dsimp only at h
    split at h
    · exact absurd h (by simp)
    · rename_i r2 wE hedit
      obtain ⟨he, hbgE, hfsE, hcallsE⟩ := callEdit_ok hedit
      split at h
      · exact absurd h (by simp)
      · rename_i i2 rest2 himgs2
        split at h
        · exact absurd h (by simp)
        · rename_i wR hR
          have htopE : wE.bg.topic = w.bg.topic :=
            congrArg BannerGenerator.topic (hbgE.trans hbgL)
          have hcallsE' : wE.calls = w.calls ++
              [Call.textMulti (lagsPrompt (strOf w.bg.text_v3)) [i0] lags,
               Call.editImage (editReqOf i0 (fixPrompt lags)) r2] := by
            rw [hcallsE, hcallsL]
            simp
          cases retest with
          | false =>
            simp only [Bool.false_eq_true, if_false] at hR
            injection hR with hR
            subst hR
            split at h
            · exact absurd h (by simp)
            · rename_i rfin hfin
              split at h
              · exact absurd h (by simp)
              · rename_i ifin restf hfim
                injection h with h
                injection h with h1 h2
                subst h1
                subst h2
                refine ⟨by simp [fsWrite, htopE], by simp [fsWrite, htopE], ?_⟩
                refine ⟨[Call.textMulti (lagsPrompt (strOf w.bg.text_v3)) [i0] lags,
                         Call.editImage (editReqOf i0 (fixPrompt lags)) r2], ?_, ?_⟩
                · simp [fsWrite, hcallsE']
                · simp [Call.isEdit]
          | true =>
            simp only [if_true] at hR
            obtain ⟨lags2, j0, r3, i3, rest3, hj0, himgs3, he3, htopR, hv2R,
              hv3R, hfsR, hfsR', hcallsR⟩ := retestStep_ok hR
            split at h
            · exact absurd h (by simp)
            · rename_i rfin hfin
              split at h
              · exact absurd h (by simp)
              · rename_i ifin restf hfim
                injection h with h
                injection h with h1 h2
                subst h1
                subst h2
                have htopR' : wR.bg.topic = w.bg.topic := by
                  rw [htopR]; simp [fsWrite, htopE]
                refine ⟨by simp [fsWrite, htopR'], by simp [fsWrite, htopR'], ?_⟩
                have hcallsR' : wR.calls = w.calls ++
                    [Call.textMulti (lagsPrompt (strOf w.bg.text_v3)) [i0] lags,
                     Call.editImage (editReqOf i0 (fixPrompt lags)) r2] ++
                    [Call.textMulti
                        (lagsPrompt (strOf (fsWrite
                          { wE with bg := { wE.bg with img_response_v2 := some r2 } }
                          tempPath i2).bg.text_v3)) [j0] lags2,
                     Call.editImage (editReqOf j0 (fixEditPrompt lags2)) r3] := by
                  rw [hcallsR]
                  simp [fsWrite, hcallsE']
                refine ⟨_, by simpa [List.append_assoc] using hcallsR', ?_⟩
                simp [Call.isEdit]

theorem execute_ok {sv : Services} {QC : Bool} {w : World} {p : String}
    {w₁ : World} (h : execute sv QC w = .ok (p, w₁)) :
    p = "images/output/" ++ output_filename_of w.bg.topic := by
  unfold execute at h
  split at h
  · exact absurd h (by simp)
  · rename_i wA hA
    split at h
    · exact absurd h (by simp)
    · rename_i wB hB
      split at h
      · exact absurd h (by simp)
      · rename_i q wC hC
        obtain ⟨-, htA, -, -⟩ := extract_information_ok hA
        obtain ⟨t3, -, htB, -⟩ := create_text_prompt_ok hB
        obtain ⟨resp, i, rest, -, -, -, htC, -⟩ := generate_image_ok hC
        obtain ⟨hp, -, -⟩ := fix_image_ok h
        rw [hp, htC, htB, htA]

/-! ## Pure lemmas about the string manipulations -/

/-- Python's `[9:-5]` slice removes exactly the first 9 and the last 5
characters, whatever the length of its input. -/
theorem pySlice9m5_eq_dropFirst9Last5 (s : String) :
    pySlice9m5 s = dropFirst9Last5 s := by
  unfold pySlice9m5 dropFirst9Last5
  rw [List.drop_take]
  simp only [List.length_drop]
  congr 2

/-- Any string obtained by appending `.jpg` ends in `.jpg`. -/
theorem jpgSuffixed_append (s : String) : jpgSuffixed (s ++ ".jpg") := by
  unfold jpgSuffixed
  rw [String.data_append]
  constructor
  · simp
  · have hlen : (s.data ++ ".jpg".data).length - 4 = s.data.length := by simp
    rw [hlen]
    exact List.drop_left s.data ".jpg".data

/-- The code's sanitized filename is exactly the spec's described
derivation. -/
theorem output_filename_of_eq_specFilename (topic : String) :
    output_filename_of topic = specFilename topic := rfl

/-- The output filename always ends in `.jpg`. -/
theorem output_filename_of_jpgSuffixed (topic : String) :
    jpgSuffixed ("images/output/" ++ output_filename_of topic) := by
  unfold output_filename_of
  rw [← String.append_assoc]
  exact jpgSuffixed_append _

/-- A topic without any alphanumeric character or space sanitizes to the
bare extension `.jpg`. -/
theorem output_filename_of_no_keep {topic : String}
    (h : ∀ c ∈ topic.data, pyIsAlnum c = false ∧ c ≠ ' ') :
    output_filename_of topic = ".jpg" := by
  unfold output_filename_of
  have hnil : topic.data.filter (fun e => pyIsAlnum e || e == ' ') = [] := by
    apply List.filter_eq_nil_iff.mpr
    intro c hc
    obtain ⟨h1, h2⟩ := h c hc
    simp [h1, h2]
  rw [hnil]
  rfl

/-- `true` exactly on the plain text calls. -/
def Call.isText : Call → Bool
  | .text _ _ => true
  | _ => false

/-! ## Concrete services and worlds used by the witnesses -/

/-- Total services: the text model answers with fixed strings, the image
models answer with one image whose contents encode the request prompt's
length. -/
def svConst : Services where
  generate_content _ := .ok "0123456789ABCDEFGHI"
  generate_content_multi _ _ := .ok "MULTI"
  generate_images req := .ok ⟨[⟨"RGB", req.prompt.length⟩]⟩
  edit_image req := .ok ⟨[⟨"RGB", req.prompt.length⟩]⟩

/-- A fresh session on the spec's example topic. -/
def diwaliWorld : World :=
  { bg := { topic := "Diwali Sale on Premium Ghee 1kg Jar" },
    fs := fun _ => none, calls := [] }

/-- A fresh session on a topic with no alphanumeric character or space. -/
def bangWorld : World :=
  { bg := { topic := "!!!" }, fs := fun _ => none, calls := [] }

/-- A mid-pipeline state as `fix_image` sees it: models launched and a
temporary image on disk. -/
def repairWorld : World :=
  { bg := { topic := "T", pm := some "gemini-1.5-flash",
            im := some "imagen-3.0-generate-001",
            em := some "imagegeneration@006", launch_state := true },
    fs := fun q => if q = tempPath then some ⟨"RGB", 7⟩ else none,
    calls := [] }

/-- A mid-pipeline state as `generate_image` sees it, with an aspect ratio
supplied and a stale temporary image on disk. -/
def genWorld : World :=
  { bg := { topic := "T", aspect_ratio := some .r16x9,
            pm := some "gemini-1.5-flash",
            im := some "imagen-3.0-generate-001",
            em := some "imagegeneration@006", launch_state := true },
    fs := fun q => if q = tempPath then some ⟨"RGB", 99⟩
                   else if q = "keep.png" then some ⟨"RGBA", 5⟩ else none,
    calls := [] }

/-- A fresh session holding one reference image that exists on disk. -/
def imagesWorld : World :=
  { bg := { topic := "T", images := some ["ref.png"] },
    fs := fun q => if q = "ref.png" then some ⟨"RGBA", 3⟩ else none,
    calls := [] }

/-- Services whose text model always fails. -/
def svDown : Services where
  generate_content _ := .error (.apiError "offline")
  generate_content_multi _ _ := .error (.apiError "offline")
  generate_images _ := .error (.apiError "offline")
  edit_image _ := .error (.apiError "offline")

/-- First component of a successful run. -/
def pathOf (x : Except Err (String × World)) : String :=
  match x with
  | .ok (p, _) => p
  | .error _ => ""

/-- Final world of a successful run. -/
def worldOf (x : Except Err (String × World)) (dflt : World) : World :=
  match x with
  | .ok (_, w) => w
  | .error _ => dflt

/-- Final world of a successful stage that returns no value. -/
def worldOfU (x : Except Err World) (dflt : World) : World :=
  match x with
  | .ok w => w
  | .error _ => dflt

/-! ## The claims -/

/-- C10: the lazy model launch is idempotent.  A first invocation (with
`launch_state` still false) builds the three model handles from the
configured model names and sets `launch_state`; launching again changes
nothing at all, and a launch never touches the rest of the session, the
filesystem or the call trace. -/
theorem launch_once_then_stable (w : World) :
    (w.bg.launch_state = false →
      (launch w).bg.pm = some w.bg.text_model ∧
      (launch w).bg.im = some w.bg.image_model ∧
      (launch w).bg.em = some w.bg.edit_model ∧
      (launch w).bg.launch_state = true) ∧
    launch (launch w) = launch w ∧
    ((launch w).bg.topic = w.bg.topic ∧
     (launch w).bg.images = w.bg.images ∧
     (launch w).bg.aspect_ratio = w.bg.aspect_ratio ∧
     (launch w).bg.text_v0 = w.bg.text_v0 ∧
     (launch w).bg.text_v1 = w.bg.text_v1 ∧
     (launch w).bg.text_v2 = w.bg.text_v2 ∧
     (launch w).bg.text_v3 = w.bg.text_v3 ∧
     (launch w).bg.img_response_v1 = w.bg.img_response_v1 ∧
     (launch w).bg.img_response_v2 = w.bg.img_response_v2 ∧
     (launch w).bg.img_response_v3 = w.bg.img_response_v3 ∧
     (launch w).fs = w.fs ∧
     (launch w).calls = w.calls) := by
  refine ⟨?_, launch_eq_self (launch_launch_state w), ?_⟩
  · intro h
    unfold launch
    rw [h]
    simp
  · unfold launch
    split <;> simp

/-- Witness for C10 at a concrete fresh session. -/
theorem launch_once_then_stable_witness :
    (diwaliWorld.bg.launch_state = false) ∧
    ((launch diwaliWorld).bg.pm = some diwaliWorld.bg.text_model ∧
     (launch diwaliWorld).bg.im = some diwaliWorld.bg.image_model ∧
     (launch diwaliWorld).bg.em = some diwaliWorld.bg.edit_model ∧
     (launch diwaliWorld).bg.launch_state = true) ∧
    launch (launch diwaliWorld) = launch diwaliWorld :=
  ⟨rfl, (launch_once_then_stable diwaliWorld).1 rfl,
    (launch_once_then_stable diwaliWorld).2.1⟩

/-- C4: `text_v1` is always the text-service response to the consolidation
prompt (the call at index 1 of a fresh trace, or index 2 when images were
attached) with exactly its first 9 and last 5 characters removed — Python
`[9:-5]` — regardless of the shape or length of the response. -/
theorem text_v1_is_sliced_consolidation_response (sv : Services)
    (w w₁ : World) (pr r : String) (hst : w.calls = [])
    (h : extract_information sv w = .ok w₁)
    (hidx : w₁.calls[if pyTruthy w.bg.images then 2 else 1]? =
      some (.text pr r)) :
    w₁.bg.text_v1 = some (dropFirst9Last5 r) := by
  obtain ⟨-, -, -, t0, t1, t2, -, hv1, -, hcase⟩ := extract_information_ok h
  rw [← pySlice9m5_eq_dropFirst9Last5]
  rcases hcase with ⟨hf, hcalls⟩ | ⟨imgs, info, ht, hcalls⟩
  · rw [hf] at hidx
    rw [hcalls, hst] at hidx
    simp at hidx
    obtain ⟨-, hr⟩ := hidx
    rw [hv1, hr]
  · rw [ht] at hidx
    rw [hcalls, hst] at hidx
    simp at hidx
    obtain ⟨-, hr⟩ := hidx
    rw [hv1, hr]

/-- Witness for C4: a concrete successful extraction round without images;
the consolidation response is the constant answer of `svConst`, and
`text_v1` is that answer with its first 9 and last 5 characters cut. -/
theorem text_v1_is_sliced_consolidation_response_witness :
    diwaliWorld.calls = [] ∧
    extract_information svConst diwaliWorld =
      .ok (worldOfU (extract_information svConst diwaliWorld) diwaliWorld) ∧
    (worldOfU (extract_information svConst diwaliWorld)
        diwaliWorld).calls[if pyTruthy diwaliWorld.bg.images then 2 else 1]? =
      some (.text (consolidatePrompt "0123456789ABCDEFGHI")
        "0123456789ABCDEFGHI") ∧
    (worldOfU (extract_information svConst diwaliWorld)
        diwaliWorld).bg.text_v1 =
      some (dropFirst9Last5 "0123456789ABCDEFGHI") :=
  ⟨rfl, rfl, rfl,
    text_v1_is_sliced_consolidation_response svConst diwaliWorld
      (worldOfU (extract_information svConst diwaliWorld) diwaliWorld)
      (consolidatePrompt "0123456789ABCDEFGHI") "0123456789ABCDEFGHI"
      rfl rfl rfl⟩

/-- C2: for every non-empty topic, a successful `execute` returns a
non-empty path ending in `.jpg`, equal to `images/output/` followed by the
topic sanitized exactly as the spec describes (keep alphanumerics and
spaces, truncate to 50, strip, spaces to underscores, `.jpg`); and the
code's filename derivation coincides with the spec's. -/
theorem execute_output_path_spec (sv : Services) (QC : Bool) (w : World)
    (p : String) (w₁ : World) (_hne : w.bg.topic ≠ "")
    (h : execute sv QC w = .ok (p, w₁)) :
    p ≠ "" ∧ jpgSuffixed p ∧
    p = "images/output/" ++ specFilename w.bg.topic ∧
    output_filename_of w.bg.topic = specFilename w.bg.topic := by
  have hp := execute_ok h
  have hjpg : jpgSuffixed p := by
    rw [hp]; exact output_filename_of_jpgSuffixed _
  refine ⟨?_, hjpg, ?_, output_filename_of_eq_specFilename _⟩
  · intro hempty
    obtain ⟨hlen, -⟩ := hjpg
    rw [hempty] at hlen
    exact absurd hlen (by decide)
  · rw [hp, output_filename_of_eq_specFilename]

/-- Witness for C2: the spec's example scenario.  With no images, no
aspect ratio and no quality check, the returned path is exactly
`images/output/Diwali_Sale_on_Premium_Ghee_1kg_Jar.jpg`. -/
theorem execute_output_path_spec_witness :
    diwaliWorld.bg.topic ≠ "" ∧
    execute svConst false diwaliWorld =
      .ok (pathOf (execute svConst false diwaliWorld),
           worldOf (execute svConst false diwaliWorld) diwaliWorld) ∧
    (pathOf (execute svConst false diwaliWorld) ≠ "" ∧
     jpgSuffixed (pathOf (execute svConst false diwaliWorld)) ∧
     pathOf (execute svConst false diwaliWorld) =
       "images/output/" ++ specFilename diwaliWorld.bg.topic ∧
     output_filename_of diwaliWorld.bg.topic =
       specFilename diwaliWorld.bg.topic) ∧
    pathOf (execute svConst false diwaliWorld) =
      "images/output/Diwali_Sale_on_Premium_Ghee_1kg_Jar.jpg" :=
  ⟨by decide, rfl,
    execute_output_path_spec svConst false diwaliWorld
      (pathOf (execute svConst false diwaliWorld))
      (worldOf (execute svConst false diwaliWorld) diwaliWorld)
      (by decide) rfl,
    by decide⟩

/-- C9: a topic with no alphanumeric characters and no spaces sanitizes to
the bare extension, so a successful `execute` writes the final image to
`images/output/.jpg`. -/
theorem execute_degenerate_topic (sv : Services) (QC : Bool) (w : World)
    (p : String) (w₁ : World) (_hne : w.bg.topic ≠ "")
    (hchars : ∀ c ∈ w.bg.topic.data, pyIsAlnum c = false ∧ c ≠ ' ')
    (h : execute sv QC w = .ok (p, w₁)) :
    output_filename_of w.bg.topic = ".jpg" ∧ p = "images/output/.jpg" := by
  have h1 := output_filename_of_no_keep hchars
  exact ⟨h1, by rw [execute_ok h, h1]; rfl⟩

/-- Witness for C9: the topic `!!!`. -/
theorem execute_degenerate_topic_witness :
    bangWorld.bg.topic ≠ "" ∧
    (∀ c ∈ bangWorld.bg.topic.data, pyIsAlnum c = false ∧ c ≠ ' ') ∧
    execute svConst false bangWorld =
      .ok (pathOf (execute svConst false bangWorld),
           worldOf (execute svConst false bangWorld) bangWorld) ∧
    (output_filename_of bangWorld.bg.topic = ".jpg" ∧
     pathOf (execute svConst false bangWorld) = "images/output/.jpg") :=
  ⟨by decide, by decide, rfl,
    execute_degenerate_topic svConst false bangWorld
      (pathOf (execute svConst false bangWorld))
      (worldOf (execute svConst false bangWorld) bangWorld)
      (by decide) (by decide) rfl⟩

/-- C3: a successful run of the repair stage makes exactly two edit-service
calls when the quality-check (`retest`) flag is set, and exactly one when
it is not. -/
theorem fix_image_edit_count (sv : Services) (retest : Bool) (w : World)
    (p : String) (w₁ : World) (h : fix_image sv retest w = .ok (p, w₁)) :
    w₁.calls.countP Call.isEdit =
      w.calls.countP Call.isEdit + (if retest then 2 else 1) := by
  obtain ⟨-, -, delta, hcalls, hcount⟩ := fix_image_ok h
  rw [hcalls, List.countP_append, hcount]

/-- Witness for C3: a concrete repair with the flag set makes two edit
calls (and, rerun without the flag, one). -/
theorem fix_image_edit_count_witness :
    fix_image svConst true repairWorld =
      .ok (pathOf (fix_image svConst true repairWorld),
           worldOf (fix_image svConst true repairWorld) repairWorld) ∧
    (worldOf (fix_image svConst true repairWorld) repairWorld).calls.countP
        Call.isEdit =
      repairWorld.calls.countP Call.isEdit + (if true then 2 else 1) :=
  ⟨rfl,
    fix_image_edit_count svConst true repairWorld
      (pathOf (fix_image svConst true repairWorld))
      (worldOf (fix_image svConst true repairWorld) repairWorld) rfl⟩

/-- C5: the image-generation request of a successful `generate_image` run
carries exactly the session's aspect ratio: the supplied value when one was
supplied, and no aspect-ratio argument (`none`) when not. -/
theorem aspect_ratio_forwarded (sv : Services) (w : World) (p : String)
    (w₁ : World) (req : GenReq) (resp : ImgResponse)
    (h : generate_image sv w = .ok (p, w₁))
    (hmem : Call.genImages req resp ∈ w₁.calls)
    (hnew : Call.genImages req resp ∉ w.calls) :
    req.aspect_ratio = w.bg.aspect_ratio := by
  obtain ⟨resp', i, rest, -, -, -, -, -, hcalls, -, -⟩ := generate_image_ok h
  rw [hcalls] at hmem
  rcases List.mem_append.mp hmem with hin | hin
  · exact absurd hin hnew
  · simp only [List.mem_singleton, Call.genImages.injEq] at hin
    rw [hin.1]

/-- Witness for C5: a session with the 16:9 ratio; the one generation call
recorded carries exactly that ratio. -/
theorem aspect_ratio_forwarded_witness :
    generate_image svConst genWorld =
      .ok (pathOf (generate_image svConst genWorld),
           worldOf (generate_image svConst genWorld) genWorld) ∧
    Call.genImages
        { prompt := genPrompt "None", aspect_ratio := some .r16x9 }
        ⟨[⟨"RGB", (genPrompt "None").length⟩]⟩ ∈
      (worldOf (generate_image svConst genWorld) genWorld).calls ∧
    Call.genImages
        { prompt := genPrompt "None", aspect_ratio := some .r16x9 }
        ⟨[⟨"RGB", (genPrompt "None").length⟩]⟩ ∉ genWorld.calls ∧
    GenReq.aspect_ratio
        { prompt := genPrompt "None", aspect_ratio := some .r16x9 } =
      genWorld.bg.aspect_ratio :=
  ⟨rfl, by decide, by decide,
    aspect_ratio_forwarded svConst genWorld
      (pathOf (generate_image svConst genWorld))
      (worldOf (generate_image svConst genWorld) genWorld)
      { prompt := genPrompt "None", aspect_ratio := some .r16x9 }
      ⟨[⟨"RGB", (genPrompt "None").length⟩]⟩
      rfl (by decide) (by decide)⟩

/-- C7: a successful `generate_image` returns the fixed temporary path
`images/temp/temp.jpg`, leaves exactly the freshly generated image there —
overwriting whatever was there before — and touches no other file. -/
theorem generate_image_overwrites_temp (sv : Services) (w : World)
    (p : String) (w₁ : World) (h : generate_image sv w = .ok (p, w₁)) :
    p = tempPath ∧
    (w₁.bg.img_response_v1).isSome = true ∧
    (∀ resp, w₁.bg.img_response_v1 = some resp →
      w₁.fs tempPath = resp.images.head?) ∧
    (∀ q, q ≠ tempPath → w₁.fs q = w.fs q) := by
  obtain ⟨resp, i, rest, himgs, -, hp, -, hv1, -, hfst, hother⟩ :=
    generate_image_ok h
  refine ⟨hp, by rw [hv1]; rfl, ?_, hother⟩
  intro resp' hr
  rw [hv1] at hr
  injection hr with hr
  subst hr
  rw [hfst, himgs]
  rfl

/-- Witness for C7: the stale temporary image of `genWorld` is replaced by
the newly generated one, and an unrelated file survives untouched. -/
theorem generate_image_overwrites_temp_witness :
    generate_image svConst genWorld =
      .ok (pathOf (generate_image svConst genWorld),
           worldOf (generate_image svConst genWorld) genWorld) ∧
    (pathOf (generate_image svConst genWorld) = tempPath ∧
     ((worldOf (generate_image svConst genWorld) genWorld).bg.img_response_v1).isSome
        = true) ∧
    (worldOf (generate_image svConst genWorld) genWorld).fs tempPath =
      some ⟨"RGB", (genPrompt "None").length⟩ ∧
    (worldOf (generate_image svConst genWorld) genWorld).fs "keep.png" =
      genWorld.fs "keep.png" :=
  ⟨rfl,
    ⟨(generate_image_overwrites_temp svConst genWorld
        (pathOf (generate_image svConst genWorld))
        (worldOf (generate_image svConst genWorld) genWorld) rfl).1,
     (generate_image_overwrites_temp svConst genWorld
        (pathOf (generate_image svConst genWorld))
        (worldOf (generate_image svConst genWorld) genWorld) rfl).2.1⟩,
    by decide,
    (generate_image_overwrites_temp svConst genWorld
        (pathOf (generate_image svConst genWorld))
        (worldOf (generate_image svConst genWorld) genWorld) rfl).2.2.2
      "keep.png" (by decide)⟩

/-- C6: starting from a fresh trace, when the session's image list is
non-empty a successful information extraction makes the image-description
request (the multimodal call, at index 1, with the fixed examination
prompt) and appends its response to the consolidation request (the text
call at index 2) before the consolidated summary is requested; with an
empty or absent image list, no multimodal request is made at all. -/
theorem images_description_merged (sv : Services) (w w₁ : World)
    (hst : w.calls = []) (h : extract_information sv w = .ok w₁) :
    (pyTruthy w.bg.images = false → ∀ c ∈ w₁.calls, c.isMulti = false) ∧
    (pyTruthy w.bg.images = true →
      w₁.calls.length = 4 ∧
      (w₁.calls[1]?).map Call.isMulti = some true ∧
      (w₁.calls[2]?).map Call.isText = some true ∧
      ∀ pr imgs info, w₁.calls[1]? = some (.textMulti pr imgs info) →
        pr = examinePrompt ∧
        ∀ p2 r2, w₁.calls[2]? = some (.text p2 r2) →
          p2 = consolidatePrompt (strOf w₁.bg.text_v0) ++
            " Product insights: " ++ info) := by
  obtain ⟨-, -, -, t0, t1, t2, hv0, -, -, hcase⟩ := extract_information_ok h
  constructor
  · intro hfalse c hc
    rcases hcase with ⟨-, hcalls⟩ | ⟨imgs, info, htrue, -⟩
    · rw [hcalls, hst] at hc
      simp only [List.nil_append, List.mem_cons, List.not_mem_nil,
        or_false] at hc
      rcases hc with rfl | rfl | rfl <;> rfl
    · rw [htrue] at hfalse
      cases hfalse
  · intro htrue
    rcases hcase with ⟨hfalse, -⟩ | ⟨imgs, info, -, hcalls⟩
    · rw [hfalse] at htrue
      cases htrue
    · rw [hcalls, hst]
      refine ⟨by simp, by simp [Call.isMulti], by simp [Call.isText], ?_⟩
      intro pr imgs' info' h1
      simp only [List.nil_append, List.getElem?_cons_succ,
        List.getElem?_cons_zero, Option.some.injEq, Call.textMulti.injEq] at h1
      obtain ⟨hpr, -, hinfo⟩ := h1
      refine ⟨hpr.symm, ?_⟩
      intro p2 r2 h2
      simp only [List.nil_append, List.getElem?_cons_succ,
        List.getElem?_cons_zero, Option.some.injEq, Call.text.injEq] at h2
      rw [← h2.1, hv0]
      rw [← hinfo]
      rfl

/-- Witness for C6: a session holding one reference image on disk; the
trace of the successful extraction has the multimodal description call at
index 1 and the consolidation call, carrying the description, at index 2. -/
theorem images_description_merged_witness :
    imagesWorld.calls = [] ∧
    extract_information svConst imagesWorld =
      .ok (worldOfU (extract_information svConst imagesWorld) imagesWorld) ∧
    pyTruthy imagesWorld.bg.images = true ∧
    ((worldOfU (extract_information svConst imagesWorld)
        imagesWorld).calls.length = 4 ∧
     ((worldOfU (extract_information svConst imagesWorld)
        imagesWorld).calls[1]?).map Call.isMulti = some true) :=
  ⟨rfl, rfl, rfl,
    ((images_description_merged svConst imagesWorld
        (worldOfU (extract_information svConst imagesWorld) imagesWorld)
        rfl rfl).2 rfl).1,
    (((images_description_merged svConst imagesWorld
        (worldOfU (extract_information svConst imagesWorld) imagesWorld)
        rfl rfl).2 rfl).2).1⟩

/-- C8: no stage of `execute` catches or translates errors: an error value
produced by any of the four stages is returned unchanged by `execute`. -/
theorem errors_propagate_unchanged (sv : Services) (QC : Bool) (w : World)
    (e : Err) :
    (extract_information sv w = .error e → execute sv QC w = .error e) ∧
    (∀ w₁, extract_information sv w = .ok w₁ →
      create_text_prompt sv w₁ = .error e → execute sv QC w = .error e) ∧
    (∀ w₁ w₂, extract_information sv w = .ok w₁ →
      create_text_prompt sv w₁ = .ok w₂ →
      generate_image sv w₂ = .error e → execute sv QC w = .error e) ∧
    (∀ w₁ w₂ p w₃, extract_information sv w = .ok w₁ →
      create_text_prompt sv w₁ = .ok w₂ →
      generate_image sv w₂ = .ok (p, w₃) →
      fix_image sv QC w₃ = .error e → execute sv QC w = .error e) := by
  refine ⟨?_, ?_, ?_, ?_⟩
  · intro h1
    unfold execute
    rw [h1]
  · intro w₁ h1 h2
    unfold execute
    rw [h1]
    simp only []
    rw [h2]
  · intro w₁ w₂ h1 h2 h3
    unfold execute
    rw [h1]
    simp only []
    rw [h2]
    simp only []
    rw [h3]
  · intro w₁ w₂ p w₃ h1 h2 h3 h4
    unfold execute
    rw [h1]
    simp only []
    rw [h2]
    simp only []
    rw [h3]
    simp only []
    exact h4

/-- Witness for C8: services whose text model is down; `execute` returns
the service's own error value unchanged. -/
theorem errors_propagate_unchanged_witness :
    extract_information svDown diwaliWorld = .error (.apiError "offline") ∧
    execute svDown false diwaliWorld = .error (.apiError "offline") :=
  ⟨rfl,
    (errors_propagate_unchanged svDown false diwaliWorld
      (.apiError "offline")).1 rfl⟩

/-- The first repair round's edited image in a run against `svConst`:
`svConst` encodes the edit prompt's length into the image. -/
def imgEdit1 : Img := ⟨"RGB", (fixPrompt "MULTI").length⟩

/-- The second repair round's edited image in a run against `svConst`. -/
def imgEdit2 : Img := ⟨"RGB", (fixEditPrompt "MULTI").length⟩

/-- C1: with the quality-check flag set, the critique+repair pass does run
a second time (a third image response is produced and lands in the
temporary file), but the image persisted to the returned output path is
`img_response_v2` — the result of the FIRST edit — not the second,
accepted one: the two differ.  This run exhibits the divergence from the
claim. -/
theorem final_output_is_first_edit :
    ((execute svConst true diwaliWorld).map fun pw =>
        (pw.1, pw.2.fs pw.1, pw.2.fs tempPath, pw.2.bg.img_response_v3)) =
      .ok ("images/output/Diwali_Sale_on_Premium_Ghee_1kg_Jar.jpg",
        some imgEdit1, some imgEdit2, some ⟨[imgEdit2]⟩) ∧
    imgEdit1 ≠ imgEdit2 :=
  ⟨rfl, by decide⟩
